import Mathlib

/-!
Shallow embedding of `yandex.py` (YandexTranslate API wrapper).

The wrapper is a single class with one private request helper
(`_get_api_response`), a memoized `supported_languages` property
(`@property` over `@lru_cache(maxsize=1)`), a private direction builder
(`_get_translate_direction`) and two public operations (`translate`,
`detect_language`).

Modelling choices, all taken from the source:
* Decoded JSON bodies are values of an inductive `Json` type.
* The network is an oracle `Net : Request → HttpOutcome`; deterministic per
  (endpoint, payload) pair, which suffices for the properties below.
* Python exceptions are the `Err` type: `yandexException` for the wrapper's
  own `YandexException` (its argument is a Python value: a decoded JSON body
  or a message string), plus `typeError` and `attributeError` for the
  built-in exceptions the code can raise through `in` and `.get`.
* The `@lru_cache(maxsize=1)` decorator on the property getter is a single
  module-level slot keyed by the instance (`self`); it is modelled as
  `World := Option (Nat × Json)` holding at most one `(instance id, value)`
  entry, exactly as a one-slot LRU cache does.  Exceptions are not cached,
  matching `functools.lru_cache`.
* Every operation returns an `OpResult`: the Python return value or raised
  exception, the cache slot afterwards, and the list of HTTP requests issued.
-/

namespace Yandex

/-- A decoded JSON value (the result of `response.json()`). -/
inductive Json where
  | null : Json
  | bool : Bool → Json
  | num : Int → Json
  | str : String → Json
  | arr : List Json → Json
  | obj : List (String × Json) → Json

/-- The Python name of the type of a decoded JSON value, used in the
messages of built-in exceptions. -/
def pyTypeName : Json → String
  | .null => "NoneType"
  | .bool _ => "bool"
  | .num _ => "int"
  | .str _ => "str"
  | .arr _ => "list"
  | .obj _ => "dict"

/-- A single-quote character, written by code point to keep the sources
free of quote-escaping noise. -/
def squote : String := String.singleton (Char.ofNat 39)

/-- Exceptions the wrapper's code paths can raise. -/
inductive Err where
  | yandexException : Json → Err
  | typeError : String → Err
  | attributeError : String → Err

/-- An HTTP GET request: endpoint name appended to the base URL, plus the
query parameters in the order the Python dict literal lists them. -/
structure Request where
  endpoint : String
  payload : List (String × String)

/-- Outcome of issuing one HTTP request: a response with a status code and
a decoded JSON body, or a transport-level `ConnectionError`. -/
inductive HttpOutcome where
  | response : Nat → Json → HttpOutcome
  | connectionError : HttpOutcome

/-- The network environment: what outcome each request meets. -/
def Net : Type := Request → HttpOutcome

/-- The `lru_cache(maxsize=1)` slot behind the `supported_languages`
property: at most one entry, keyed by the instance id. -/
def World : Type := Option (Nat × Json)

/-- A client instance: its identity (the `self` key used by the cache) and
its stored API key. -/
structure Client where
  id : Nat
  api_key : String

/-- Result of running one operation: the returned value or raised
exception, the cache slot afterwards, and the requests issued. -/
structure OpResult (α : Type) where
  result : Except Err α
  world : World
  requests : List Request

/-- `YandexTranslate._get_api_response`: on a non-200 status raise
`YandexException(response.json())`, on a `ConnectionError` raise
`YandexException('API unavailable')`, otherwise return `response.json()`. -/
def get_api_response : HttpOutcome → Except Err Json
  | .response status body =>
      if status ≠ 200 then .error (.yandexException body) else .ok body
  | .connectionError => .error (.yandexException (.str "API unavailable"))

/-- Association-list lookup on the fields of a decoded JSON object. -/
def lookupStr : List (String × Json) → String → Option Json
  | [], _ => none
  | (k, v) :: rest, key => if k = key then some v else lookupStr rest key

/-- Python `value.get(key)`: on a dict, the field's value or `None`; on
any other value, `AttributeError` (no `get` attribute). -/
def jsonGet (v : Json) (key : String) : Except Err Json :=
  match v with
  | .obj fields =>
      .ok (match lookupStr fields key with
           | some u => u
           | none => .null)
  | other =>
      .error (.attributeError
        (squote ++ pyTypeName other ++ squote ++ " object has no attribute "
          ++ squote ++ "get" ++ squote))

/-- Python `needle in xs` for a string needle and a list: `==` against each
element, true only on an equal string element. -/
def pyMemList (needle : String) : List Json → Bool
  | [] => false
  | .str s :: rest => s == needle || pyMemList needle rest
  | _ :: rest => pyMemList needle rest

/-- Python `needle in fields` for a dict: key membership. -/
def pyMemKeys (needle : String) : List (String × Json) → Bool
  | [] => false
  | (k, _) :: rest => k == needle || pyMemKeys needle rest

/-- List-of-characters substring test, for Python `needle in haystack`
on strings. -/
def charsContain (needle : List Char) : List Char → Bool
  | [] => needle.isEmpty
  | c :: rest => needle.isPrefixOf (c :: rest) || charsContain needle rest

/-- Python `needle in v` for a string needle against a decoded JSON value:
list membership, dict key membership, substring on strings, and
`TypeError` on the non-iterable types (`None`, `bool`, `int`). -/
def pyContains (v : Json) (needle : String) : Except Err Bool :=
  match v with
  | .arr xs => .ok (pyMemList needle xs)
  | .obj fields => .ok (pyMemKeys needle fields)
  | .str s => .ok (charsContain needle.data s.data)
  | other =>
      .error (.typeError
        ("argument of type " ++ squote ++ pyTypeName other ++ squote
          ++ " is not iterable"))

/-- The request `supported_languages` issues: GET `getLangs` with payload
`{ui: 'en', key: api_key}`. -/
def getLangsRequest (c : Client) : Request :=
  ⟨"getLangs", [("ui", "en"), ("key", c.api_key)]⟩

/-- The request `translate` issues: GET `translate` with payload
`{text, format: 'plain', lang: direction, key: api_key}`. -/
def translateRequest (c : Client) (text direction : String) : Request :=
  ⟨"translate", [("text", text), ("format", "plain"), ("lang", direction),
                 ("key", c.api_key)]⟩

/-- The request `detect_language` issues: GET `detect` with payload
`{text, format: 'plain', key: api_key}`. -/
def detectRequest (c : Client) (text : String) : Request :=
  ⟨"detect", [("text", text), ("format", "plain"), ("key", c.api_key)]⟩

/-- The body of the `supported_languages` getter on a cache miss: one
`getLangs` request through `_get_api_response`, then `.get('langs')` on the
decoded body.  On a successful return the one-slot cache is overwritten
with the new `(instance, value)` entry; on an exception the slot is left
untouched (`lru_cache` does not cache exceptions). -/
def fetchLangs (net : Net) (w : World) (c : Client) : OpResult Json :=
  match get_api_response (net (getLangsRequest c)) with
  | .error e => ⟨.error e, w, [getLangsRequest c]⟩
  | .ok body =>
      match jsonGet body "langs" with
      | .error e => ⟨.error e, w, [getLangsRequest c]⟩
      | .ok v => ⟨.ok v, some (c.id, v), [getLangsRequest c]⟩

/-- `YandexTranslate.supported_languages`: the `lru_cache(maxsize=1)`-backed
property.  A slot entry keyed by this instance is a hit; anything else is a
miss and runs the getter body. -/
def supported_languages (net : Net) (w : World) (c : Client) : OpResult Json :=
  match w with
  | some (cid, v) =>
      if cid = c.id then ⟨.ok v, some (cid, v), []⟩ else fetchLangs net w c
  | none => fetchLangs net w c

/-- The message of the exception raised for an unsupported target code. -/
def targetNotSupportedMsg (target : String) : String :=
  "target language " ++ squote ++ target ++ squote ++ " not supported"

/-- The message of the exception raised for an unsupported source code. -/
def sourceNotSupportedMsg (source : String) : String :=
  "source language " ++ squote ++ source ++ squote ++ " not supported"

/-- `YandexTranslate._get_translate_direction`: check the target against
`supported_languages` (a property access, hence possibly a fetch), then
return `target` if the source is unset, else check the source (a second
property access) and return `'{}-{}'.format(source, target)`. -/
def get_translate_direction (net : Net) (w : World) (c : Client)
    (source : Option String) (target : String) : OpResult String :=
  let r1 := supported_languages net w c
  match r1.result with
  | .error e => ⟨.error e, r1.world, r1.requests⟩
  | .ok langs1 =>
    match pyContains langs1 target with
    | .error e => ⟨.error e, r1.world, r1.requests⟩
    | .ok tmem =>
      if tmem = false then
        ⟨.error (.yandexException (.str (targetNotSupportedMsg target))),
         r1.world, r1.requests⟩
      else
        match source with
        | none => ⟨.ok target, r1.world, r1.requests⟩
        | some s =>
          let r2 := supported_languages net r1.world c
          match r2.result with
          | .error e => ⟨.error e, r2.world, r1.requests ++ r2.requests⟩
          | .ok langs2 =>
            match pyContains langs2 s with
            | .error e => ⟨.error e, r2.world, r1.requests ++ r2.requests⟩
            | .ok smem =>
              if smem = false then
                ⟨.error (.yandexException (.str (sourceNotSupportedMsg s))),
                 r2.world, r1.requests ++ r2.requests⟩
              else
                ⟨.ok (s ++ "-" ++ target), r2.world,
                 r1.requests ++ r2.requests⟩

/-- `YandexTranslate.translate`: build the direction (validating the codes),
then one `translate` request through `_get_api_response`. -/
def translate (net : Net) (w : World) (c : Client) (text : String)
    (target : String) (source : Option String) : OpResult Json :=
  let d := get_translate_direction net w c source target
  match d.result with
  | .error e => ⟨.error e, d.world, d.requests⟩
  | .ok direction =>
      ⟨get_api_response (net (translateRequest c text direction)), d.world,
       d.requests ++ [translateRequest c text direction]⟩

/-- `translate` with its Python default arguments `target='en'`,
`source=None` filled in. -/
def translateDefault (net : Net) (w : World) (c : Client)
    (text : String) : OpResult Json :=
  translate net w c text "en" none

/-- `YandexTranslate.detect_language`: one `detect` request through
`_get_api_response`; no validation, no cache access. -/
def detect_language (net : Net) (w : World) (c : Client)
    (text : String) : OpResult Json :=
  ⟨get_api_response (net (detectRequest c text)), w, [detectRequest c text]⟩

/-- `n` successive reads of the `supported_languages` property on one
instance: the list of results, the final cache slot, and all requests
issued. -/
def callsN (net : Net) (c : Client) :
    Nat → World → List (Except Err Json) × World × List Request
  | 0, w => ([], w, [])
  | n + 1, w =>
      let r := supported_languages net w c
      let rest := callsN net c n r.world
      (r.result :: rest.1, rest.2.1, r.requests ++ rest.2.2)

/-- An interleaved schedule of `supported_languages` reads by several
instances sharing the one `lru_cache` slot: for each step, the instance
that ran and the requests its read issued. -/
def schedRun (net : Net) : World → List Client → List (Client × List Request)
  | _, [] => []
  | w, c :: rest =>
      let r := supported_languages net w c
      (c, r.requests) :: schedRun net r.world rest

/-- Total number of requests a given instance's reads issued in a schedule
trace. -/
def clientReqs (c : Client) (trace : List (Client × List Request)) : Nat :=
  ((trace.filter (fun p => p.1.id == c.id)).map (fun p => p.2.length)).sum

/-- The `TypeError` message Python raises for `x in None`. -/
def noneTypeIterMsg : String :=
  "argument of type " ++ squote ++ "NoneType" ++ squote ++ " is not iterable"

/-- A concrete `getLangs` body: `{langs: ['en', 'es']}`. -/
def langsBody : Json := .obj [("langs", .arr [.str "en", .str "es"])]

/-- A concrete error body: `{code: 401, message: 'ApiKeyInvalid'}`. -/
def errBody : Json := .obj [("code", .num 401), ("message", .str "ApiKeyInvalid")]

/-- A network where every request gets a 200 response with `langsBody`. -/
def netOk : Net := fun _ => .response 200 langsBody

/-- A network where every request hits a `ConnectionError`. -/
def netDown : Net := fun _ => .connectionError

/-- A network where every request gets a 401 response with `errBody`. -/
def net401 : Net := fun _ => .response 401 errBody

/-- A network whose `getLangs` body has no `langs` field. -/
def netNoLangs : Net := fun _ => .response 200 (.obj [("dirs", .arr [])])

/-- A concrete client instance. -/
def clientA : Client := ⟨0, "key-a"⟩

/-- A second, distinct client instance. -/
def clientB : Client := ⟨1, "key-b"⟩

theorem fetchLangs_ok {net : Net} {w : World} {c : Client} {v : Json}
    (h : (fetchLangs net w c).result = .ok v) :
    fetchLangs net w c = ⟨.ok v, some (c.id, v), [getLangsRequest c]⟩ := by
  unfold fetchLangs at h ⊢
  cases hga : get_api_response (net (getLangsRequest c)) with
  | error e => simp [hga] at h
  | ok body =>
    simp only [hga] at h ⊢
    cases hg : jsonGet body "langs" with
    | error e => simp [hg] at h
    | ok u =>
      simp only [hg, Except.ok.injEq] at h ⊢
      rw [h]

theorem fetchLangs_err {net : Net} {w : World} {c : Client} {e : Err}
    (h : (fetchLangs net w c).result = .error e) :
    fetchLangs net w c = ⟨.error e, w, [getLangsRequest c]⟩ := by
  unfold fetchLangs at h ⊢
  cases hga : get_api_response (net (getLangsRequest c)) with
  | error e2 =>
    simp only [hga, Except.error.injEq] at h ⊢
    rw [h]
  | ok body =>
    simp only [hga] at h ⊢
    cases hg : jsonGet body "langs" with
    | error e2 =>
      simp only [hg, Except.error.injEq] at h ⊢
      rw [h]
    | ok u => simp [hg] at h

theorem fetchLangs_requests (net : Net) (w : World) (c : Client) :
    (fetchLangs net w c).requests = [getLangsRequest c] := by
  unfold fetchLangs
  cases hga : get_api_response (net (getLangsRequest c)) with
  | error e => simp only [hga]
  | ok body =>
    simp only [hga]
    cases hg : jsonGet body "langs" with
    | error e => simp only [hg]
    | ok u => simp only [hg]

theorem supported_languages_hit (net : Net) (c : Client) (v : Json) :
    supported_languages net (some (c.id, v)) c = ⟨.ok v, some (c.id, v), []⟩ := by
  simp [supported_languages]

theorem supported_languages_ok_world {net : Net} {w : World} {c : Client}
    {v : Json} (h : (supported_languages net w c).result = .ok v) :
    (supported_languages net w c).world = some (c.id, v) := by
  cases w with
  | none =>
    simp only [supported_languages] at h ⊢
    rw [fetchLangs_ok h]
  | some p =>
    obtain ⟨cid, u⟩ := p
    simp only [supported_languages] at h ⊢
    by_cases hc : cid = c.id
    · rw [if_pos hc] at h ⊢
      simp only [Except.ok.injEq] at h
      rw [h, hc]
    · rw [if_neg hc] at h ⊢
      rw [fetchLangs_ok h]

theorem supported_languages_again {net : Net} {w : World} {c : Client}
    {v : Json} (h : (supported_languages net w c).result = .ok v) :
    supported_languages net (supported_languages net w c).world c
      = ⟨.ok v, (supported_languages net w c).world, []⟩ := by
  rw [supported_languages_ok_world h]
  exact supported_languages_hit net c v

theorem supported_languages_requests (net : Net) (w : World) (c : Client) :
    (supported_languages net w c).requests = []
      ∨ (supported_languages net w c).requests = [getLangsRequest c] := by
  cases w with
  | none =>
    right
    simp only [supported_languages]
    exact fetchLangs_requests net none c
  | some p =>
    obtain ⟨cid, u⟩ := p
    simp only [supported_languages]
    by_cases hc : cid = c.id
    · rw [if_pos hc]
      exact Or.inl rfl
    · rw [if_neg hc]
      right
      exact fetchLangs_requests net _ c

theorem getLangs_endpoint_ne_translate (c : Client) :
    ((getLangsRequest c).endpoint == "translate") = false := by
  show (("getLangs" : String) == "translate") = false
  decide

theorem filter_translate_of_getLangs {c : Client} {l : List Request}
    (h : l = [] ∨ l = [getLangsRequest c]) :
    l.filter (fun r => r.endpoint == "translate") = [] := by
  rcases h with h | h <;> subst h
  · rfl
  · simp [List.filter, getLangs_endpoint_ne_translate]

theorem gtd_langs_err {net : Net} {w : World} {c : Client} {e : Err}
    (h : (supported_languages net w c).result = .error e)
    (src : Option String) (t : String) :
    get_translate_direction net w c src t
      = ⟨.error e, (supported_languages net w c).world,
         (supported_languages net w c).requests⟩ := by
  unfold get_translate_direction
  simp only [h]

theorem gtd_contains_err {net : Net} {w : World} {c : Client} {v : Json}
    {e : Err} {t : String}
    (hv : (supported_languages net w c).result = .ok v)
    (hc : pyContains v t = .error e) (src : Option String) :
    get_translate_direction net w c src t
      = ⟨.error e, (supported_languages net w c).world,
         (supported_languages net w c).requests⟩ := by
  unfold get_translate_direction
  simp only [hv, hc]

theorem gtd_target_fail {net : Net} {w : World} {c : Client} {v : Json}
    {t : String}
    (hv : (supported_languages net w c).result = .ok v)
    (ht : pyContains v t = .ok false) (src : Option String) :
    get_translate_direction net w c src t
      = ⟨.error (.yandexException (.str (targetNotSupportedMsg t))),
         (supported_languages net w c).world,
         (supported_languages net w c).requests⟩ := by
  unfold get_translate_direction
  simp only [hv, ht, if_pos]

theorem gtd_dir_none {net : Net} {w : World} {c : Client} {v : Json}
    {t : String}
    (hv : (supported_languages net w c).result = .ok v)
    (ht : pyContains v t = .ok true) :
    get_translate_direction net w c none t
      = ⟨.ok t, (supported_languages net w c).world,
         (supported_languages net w c).requests⟩ := by
  unfold get_translate_direction
  simp [hv, ht]

theorem gtd_source_fail {net : Net} {w : World} {c : Client} {v : Json}
    {s t : String}
    (hv : (supported_languages net w c).result = .ok v)
    (ht : pyContains v t = .ok true)
    (hs : pyContains v s = .ok false) :
    get_translate_direction net w c (some s) t
      = ⟨.error (.yandexException (.str (sourceNotSupportedMsg s))),
         (supported_languages net w c).world,
         (supported_languages net w c).requests⟩ := by
  unfold get_translate_direction
  simp [hv, ht, hs, supported_languages_again hv]

theorem gtd_dir_both {net : Net} {w : World} {c : Client} {v : Json}
    {s t : String}
    (hv : (supported_languages net w c).result = .ok v)
    (ht : pyContains v t = .ok true)
    (hs : pyContains v s = .ok true) :
    get_translate_direction net w c (some s) t
      = ⟨.ok (s ++ "-" ++ t), (supported_languages net w c).world,
         (supported_languages net w c).requests⟩ := by
  unfold get_translate_direction
  simp [hv, ht, hs, supported_languages_again hv]

theorem translate_dir_ok {net : Net} {w : World} {c : Client}
    {text t : String} {src : Option String} {dir : String}
    (h : (get_translate_direction net w c src t).result = .ok dir) :
    translate net w c text t src
      = ⟨get_api_response (net (translateRequest c text dir)),
         (get_translate_direction net w c src t).world,
         (get_translate_direction net w c src t).requests
           ++ [translateRequest c text dir]⟩ := by
  unfold translate
  simp only [h]

theorem translate_dir_err {net : Net} {w : World} {c : Client}
    {text t : String} {src : Option String} {e : Err}
    (h : (get_translate_direction net w c src t).result = .error e) :
    translate net w c text t src
      = ⟨.error e, (get_translate_direction net w c src t).world,
         (get_translate_direction net w c src t).requests⟩ := by
  unfold translate
  simp only [h]

theorem get_api_response_200 (b : Json) :
    get_api_response (.response 200 b) = .ok b := by
  simp [get_api_response]

theorem get_api_response_ne200 {s : Nat} (hs : s ≠ 200) (b : Json) :
    get_api_response (.response s b) = .error (.yandexException b) := by
  show (if s ≠ 200 then Except.error (Err.yandexException b) else Except.ok b)
    = Except.error (Err.yandexException b)
  rw [if_pos hs]

theorem supported_languages_cold (net : Net) (c : Client) :
    supported_languages net none c = fetchLangs net none c := rfl

theorem translate_endpoint_beq (c : Client) (text dir : String) :
    ((translateRequest c text dir).endpoint == "translate") = true := by
  show (("translate" : String) == "translate") = true
  decide

/-- C7: for every text, `detect_language` issues exactly one GET to the
`detect` endpoint with exactly `{text, format: 'plain', key}`, performs no
validation against the supported-language set, and returns the decoded
200 body unmodified. -/
theorem detect_passthrough {net : Net} (w : World) (c : Client)
    (text : String) {b : Json}
    (hb : net (detectRequest c text) = .response 200 b) :
    detect_language net w c text = ⟨.ok b, w, [detectRequest c text]⟩ := by
  unfold detect_language
  rw [hb, get_api_response_200]

/-- Witness for C7 at a concrete network, client and text. -/
theorem detect_passthrough_witness :
    detect_language netOk none clientA "Bonjour"
      = ⟨.ok langsBody, none, [detectRequest clientA "Bonjour"]⟩ :=
  detect_passthrough none clientA "Bonjour" rfl

/-- C10: `detect_language` leaves the memoized language cache untouched,
issues only the one `detect` request (never `getLangs`), and its result
does not depend on the cache contents. -/
theorem detect_frame (net : Net) (w w2 : World) (c : Client) (text : String) :
    (detect_language net w c text).world = w
      ∧ (detect_language net w c text).requests = [detectRequest c text]
      ∧ ((detect_language net w c text).requests.all
          (fun r => r.endpoint == "detect")) = true
      ∧ (detect_language net w c text).result
          = (detect_language net w2 c text).result := by
  refine ⟨rfl, rfl, ?_, rfl⟩
  show ((("detect" : String) == "detect") && true) = true
  decide

/-- C4: `_get_api_response` maps a `ConnectionError` to
`YandexException('API unavailable')`, a non-200 status to a
`YandexException` carrying the decoded body, and a 200 status to the
decoded body; each public operation routes its requests through it, so
those failures surface from `detect_language`, `translate` and the
`supported_languages` fetch alike. -/
theorem api_response_mapping
    (net1 : Net) (w1 : World) (c1 : Client) (text1 : String)
    (net2 : Net) (w2 : World) (c2 : Client) (text2 target : String)
    (src : Option String) (dir : String) (net3 : Net) (c3 : Client)
    (s : Nat) (b : Json) (e : Err)
    (hs : s ≠ 200)
    (hdir : (get_translate_direction net2 w2 c2 src target).result = .ok dir)
    (herr : get_api_response (net3 (getLangsRequest c3)) = .error e) :
    get_api_response .connectionError
        = .error (.yandexException (.str "API unavailable"))
      ∧ get_api_response (.response s b) = .error (.yandexException b)
      ∧ get_api_response (.response 200 b) = .ok b
      ∧ (detect_language net1 w1 c1 text1).result
          = get_api_response (net1 (detectRequest c1 text1))
      ∧ (translate net2 w2 c2 text2 target src).result
          = get_api_response (net2 (translateRequest c2 text2 dir))
      ∧ (supported_languages net3 none c3).result = .error e := by
  refine ⟨rfl, get_api_response_ne200 hs b, get_api_response_200 b, rfl, ?_, ?_⟩
  · rw [translate_dir_ok hdir]
  · rw [supported_languages_cold]
    unfold fetchLangs
    simp only [herr]

/-- Witness for C4 at concrete networks, clients and a 401 response. -/
theorem api_response_mapping_witness :
    get_api_response .connectionError
        = .error (.yandexException (.str "API unavailable"))
      ∧ get_api_response (.response 401 errBody)
          = .error (.yandexException errBody)
      ∧ get_api_response (.response 200 errBody) = .ok errBody
      ∧ (detect_language netOk none clientA "hi").result
          = get_api_response (netOk (detectRequest clientA "hi"))
      ∧ (translate netOk none clientA "hi" "en" none).result
          = get_api_response (netOk (translateRequest clientA "hi" "en"))
      ∧ (supported_languages netDown none clientB).result
          = .error (.yandexException (.str "API unavailable")) :=
  api_response_mapping netOk none clientA "hi" netOk none clientA "hi" "en"
    none "en" netDown clientB 401 errBody
    (.yandexException (.str "API unavailable")) (by decide) rfl rfl

/-- C8: on its first invocation (cold cache), `supported_languages` issues
one GET to `getLangs` with exactly `{ui: 'en', key}` and returns the value
of the `langs` field of the decoded body. -/
theorem supported_languages_first_fetch {net : Net} {c : Client}
    {fields : List (String × Json)} {v : Json}
    (hb : net (getLangsRequest c) = .response 200 (.obj fields))
    (hl : lookupStr fields "langs" = some v) :
    supported_languages net none c
      = ⟨.ok v, some (c.id, v), [getLangsRequest c]⟩ := by
  rw [supported_languages_cold]
  unfold fetchLangs
  simp only [hb, get_api_response_200, jsonGet, hl]

/-- Witness for C8 at a concrete network and client. -/
theorem supported_languages_first_fetch_witness :
    supported_languages netOk none clientA
      = ⟨.ok (.arr [.str "en", .str "es"]),
         some (clientA.id, .arr [.str "en", .str "es"]),
         [getLangsRequest clientA]⟩ :=
  @supported_languages_first_fetch netOk clientA
    [("langs", .arr [.str "en", .str "es"])] (.arr [.str "en", .str "es"])
    rfl rfl

/-- C9: when the decoded `getLangs` body has no `langs` field,
`supported_languages` succeeds with `None` (Python `dict.get` default), and
a subsequent `translate` on the same instance fails during the membership
test with a `TypeError` — not the wrapper's `YandexException`. -/
theorem langs_missing_gives_none {net : Net} {c : Client}
    {fields : List (String × Json)} (text target : String)
    (src : Option String)
    (hb : net (getLangsRequest c) = .response 200 (.obj fields))
    (hl : lookupStr fields "langs" = none) :
    (supported_languages net none c).result = .ok .null
      ∧ (translate net (supported_languages net none c).world c
          text target src).result = .error (.typeError noneTypeIterMsg) := by
  have h1 : supported_languages net none c
      = ⟨.ok .null, some (c.id, .null), [getLangsRequest c]⟩ := by
    rw [supported_languages_cold]
    unfold fetchLangs
    simp only [hb, get_api_response_200, jsonGet, hl]
  have hv : (supported_languages net (some (c.id, Json.null)) c).result
      = .ok Json.null := by
    rw [supported_languages_hit]
  have hc : pyContains Json.null target = .error (.typeError noneTypeIterMsg) := rfl
  have hg := gtd_contains_err hv hc src
  have hres : (get_translate_direction net (some (c.id, Json.null)) c
      src target).result = .error (.typeError noneTypeIterMsg) := by
    rw [hg]
  refine ⟨by rw [h1], ?_⟩
  rw [h1]
  rw [translate_dir_err hres]

/-- Witness for C9 at a concrete network whose body lacks `langs`. -/
theorem langs_missing_gives_none_witness :
    (supported_languages netNoLangs none clientA).result = .ok .null
      ∧ (translate netNoLangs (supported_languages netNoLangs none clientA).world
          clientA "x" "en" none).result = .error (.typeError noneTypeIterMsg) :=
  @langs_missing_gives_none netNoLangs clientA [("dirs", .arr [])]
    "x" "en" none rfl rfl

/-- C1: `translate` validates the target against the supported-language
set first and fails with the target-naming `YandexException` without a
`translate` request; with a valid target and an unsupported source it
fails with the source-naming `YandexException`, again with no `translate`
request. -/
theorem translate_validation_order {net : Net} {w : World} {c : Client}
    {v : Json} (text : String) {t1 t2 s : String} (src : Option String)
    (hv : (supported_languages net w c).result = .ok v)
    (ht1 : pyContains v t1 = .ok false)
    (ht2 : pyContains v t2 = .ok true)
    (hs : pyContains v s = .ok false) :
    (translate net w c text t1 src).result
        = .error (.yandexException (.str (targetNotSupportedMsg t1)))
      ∧ (translate net w c text t1 src).requests.filter
          (fun r => r.endpoint == "translate") = []
      ∧ (translate net w c text t2 (some s)).result
        = .error (.yandexException (.str (sourceNotSupportedMsg s)))
      ∧ (translate net w c text t2 (some s)).requests.filter
          (fun r => r.endpoint == "translate") = [] := by
  have hg1 := gtd_target_fail hv ht1 src
  have hres1 : (get_translate_direction net w c src t1).result
      = .error (.yandexException (.str (targetNotSupportedMsg t1))) := by
    rw [hg1]
  have hg2 := gtd_source_fail hv ht2 hs
  have hres2 : (get_translate_direction net w c (some s) t2).result
      = .error (.yandexException (.str (sourceNotSupportedMsg s))) := by
    rw [hg2]
  rw [translate_dir_err hres1, translate_dir_err hres2]
  refine ⟨rfl, ?_, rfl, ?_⟩
  · rw [hg1]
    exact filter_translate_of_getLangs (supported_languages_requests net w c)
  · rw [hg2]
    exact filter_translate_of_getLangs (supported_languages_requests net w c)

/-- Witness for C1 at a concrete network, client and codes. -/
theorem translate_validation_order_witness :
    (translate netOk none clientA "x" "zz" none).result
        = .error (.yandexException (.str (targetNotSupportedMsg "zz")))
      ∧ (translate netOk none clientA "x" "zz" none).requests.filter
          (fun r => r.endpoint == "translate") = []
      ∧ (translate netOk none clientA "x" "en" (some "qq")).result
        = .error (.yandexException (.str (sourceNotSupportedMsg "qq")))
      ∧ (translate netOk none clientA "x" "en" (some "qq")).requests.filter
          (fun r => r.endpoint == "translate") = [] :=
  translate_validation_order (v := .arr [.str "en", .str "es"]) "x" none
    rfl rfl rfl rfl

/-- C2: with supported source and target, `translate` sends the `translate`
request with `lang` equal to `source-target`; with the source unset it
sends `lang` equal to the target alone; the target defaults to `'en'`. -/
theorem translate_direction_construction {net : Net} {w : World} {c : Client}
    {v : Json} (text : String) {s t : String}
    (hv : (supported_languages net w c).result = .ok v)
    (ht : pyContains v t = .ok true)
    (hs : pyContains v s = .ok true) :
    (translate net w c text t (some s)).result
        = get_api_response (net (translateRequest c text (s ++ "-" ++ t)))
      ∧ (translate net w c text t (some s)).requests.filter
          (fun r => r.endpoint == "translate")
        = [translateRequest c text (s ++ "-" ++ t)]
      ∧ (translate net w c text t none).result
          = get_api_response (net (translateRequest c text t))
      ∧ (translate net w c text t none).requests.filter
          (fun r => r.endpoint == "translate") = [translateRequest c text t]
      ∧ translateDefault net w c text = translate net w c text "en" none := by
  have hg1 := gtd_dir_both hv ht hs
  have hres1 : (get_translate_direction net w c (some s) t).result
      = .ok (s ++ "-" ++ t) := by rw [hg1]
  have hg2 := gtd_dir_none hv ht
  have hres2 : (get_translate_direction net w c none t).result = .ok t := by
    rw [hg2]
  rw [translate_dir_ok hres1, translate_dir_ok hres2]
  refine ⟨rfl, ?_, rfl, ?_, rfl⟩
  · rw [hg1]
    rw [List.filter_append,
      filter_translate_of_getLangs (supported_languages_requests net w c)]
    simp [translate_endpoint_beq]
  · rw [hg2]
    rw [List.filter_append,
      filter_translate_of_getLangs (supported_languages_requests net w c)]
    simp [translate_endpoint_beq]

/-- Witness for C2 at a concrete network, client and codes. -/
theorem translate_direction_construction_witness :
    (translate netOk none clientA "hello" "es" (some "en")).result
        = get_api_response (netOk (translateRequest clientA "hello" ("en" ++ "-" ++ "es")))
      ∧ (translate netOk none clientA "hello" "es" (some "en")).requests.filter
          (fun r => r.endpoint == "translate")
        = [translateRequest clientA "hello" ("en" ++ "-" ++ "es")]
      ∧ (translate netOk none clientA "hello" "es" none).result
          = get_api_response (netOk (translateRequest clientA "hello" "es"))
      ∧ (translate netOk none clientA "hello" "es" none).requests.filter
          (fun r => r.endpoint == "translate")
        = [translateRequest clientA "hello" "es"]
      ∧ translateDefault netOk none clientA "hello"
          = translate netOk none clientA "hello" "en" none :=
  translate_direction_construction (v := .arr [.str "en", .str "es"]) "hello"
    rfl rfl rfl

/-- C6: a failed first fetch is not memoized — the cache slot is left
unset, so a later read on the same instance issues the `getLangs` request
again. -/
theorem failure_not_memoized {net net2 : Net} {c : Client} {e : Err}
    (h : (supported_languages net none c).result = .error e) :
    (supported_languages net none c).world = none
      ∧ (supported_languages net2 (supported_languages net none c).world
          c).requests = [getLangsRequest c] := by
  have h1 : supported_languages net none c
      = ⟨.error e, none, [getLangsRequest c]⟩ := by
    rw [supported_languages_cold]
    exact fetchLangs_err h
  rw [h1]
  exact ⟨rfl, fetchLangs_requests net2 none c⟩

/-- Witness for C6: a connection failure on the first read, then a retry
against a healthy network. -/
theorem failure_not_memoized_witness :
    (supported_languages netDown none clientA).world = none
      ∧ (supported_languages netOk (supported_languages netDown none clientA).world
          clientA).requests = [getLangsRequest clientA] :=
  failure_not_memoized (e := .yandexException (.str "API unavailable")) rfl

theorem callsN_cached (net : Net) (c : Client) (v : Json) (n : Nat) :
    callsN net c n (some (c.id, v))
      = (List.replicate n (Except.ok v), some (c.id, v), []) := by
  induction n with
  | zero => rfl
  | succ m ih =>
    simp only [callsN, supported_languages_hit, ih]
    simp [List.replicate_succ]

/-- C3: on a single instance whose first fetch succeeds, `n` reads of
`supported_languages` issue exactly one `getLangs` request and all return
the same value. -/
theorem supported_languages_idempotent_caching {net : Net} {c : Client}
    {v : Json} {n : Nat}
    (h : (supported_languages net none c).result = .ok v) (hn : 1 ≤ n) :
    (callsN net c n none).1 = List.replicate n (Except.ok v)
      ∧ (callsN net c n none).2.2 = [getLangsRequest c] := by
  obtain ⟨m, rfl⟩ : ∃ m, n = m + 1 := ⟨n - 1, by omega⟩
  have h1 : supported_languages net none c
      = ⟨.ok v, some (c.id, v), [getLangsRequest c]⟩ := by
    rw [supported_languages_cold]
    exact fetchLangs_ok h
  simp only [callsN, h1, callsN_cached]
  exact ⟨by simp [List.replicate_succ], by simp⟩

/-- Witness for C3 with three reads on a concrete instance. -/
theorem supported_languages_idempotent_caching_witness :
    (callsN netOk clientA 3 none).1
        = List.replicate 3 (Except.ok (.arr [.str "en", .str "es"]))
      ∧ (callsN netOk clientA 3 none).2.2 = [getLangsRequest clientA] :=
  supported_languages_idempotent_caching rfl (by decide)

/-- Counterexample to C5: with two instances sharing the one-slot
`lru_cache` and the interleaved schedule A, B, A, instance A's reads issue
two `getLangs` requests — the set is not computed at most once per
instance. -/
theorem lru_slot_eviction_counterexample :
    ¬ clientReqs clientA (schedRun netOk none [clientA, clientB, clientA]) ≤ 1 := by
  decide

/-- C5 as amended: for reads of a single instance, uninterleaved with any
other instance (starting from the untouched slot), the set is computed at
most once — over any number of reads with a successful first fetch, at
most one `getLangs` request is ever issued, and the slot is never
invalidated or refreshed. -/
theorem single_instance_at_most_one_fetch {net : Net} {c : Client}
    {v : Json} (n : Nat)
    (h : (supported_languages net none c).result = .ok v) :
    (callsN net c n none).2.2.length ≤ 1
      ∧ (callsN net c (n + 1) none).2.1 = some (c.id, v) := by
  have h1 : supported_languages net none c
      = ⟨.ok v, some (c.id, v), [getLangsRequest c]⟩ := by
    rw [supported_languages_cold]
    exact fetchLangs_ok h
  constructor
  · cases n with
    | zero => simp [callsN]
    | succ m =>
      simp only [callsN, h1, callsN_cached]
      simp
  · simp only [callsN, h1, callsN_cached]

/-- Witness for the amended C5 with three reads on a concrete instance. -/
theorem single_instance_at_most_one_fetch_witness :
    (callsN netOk clientA 3 none).2.2.length ≤ 1
      ∧ (callsN netOk clientA 4 none).2.1
          = some (clientA.id, .arr [.str "en", .str "es"]) :=
  single_instance_at_most_one_fetch 3 rfl

end Yandex
